import Mathlib

/-!
Verification of the camera / SLAM frame-processing core.

This file is a shallow embedding, in Lean 4, of the numeric core of the
repository:

  * `src/lib/3d-analysis.ts`      — `ImageProcessor` (brightness, contrast,
    gamma, denoise, edge enhancement, thermal remap), `Analysis3D`
    (`enhanceNightVision`, `analyzeMorphology` / `calculateComplexity`);
  * `src/lib/mapping-algorithms.ts` — `SLAMProcessor` (`processFrame`,
    `addPointsToMap`, `detectLandmarks`, `updateTrajectory`, `optimizeMap`,
    `getCurrentMap`) plus the `ai-models` data model;
  * `src/hooks/use-ai-detection.ts` — `trackObjects`;
  * `src/hooks/use-mapping.ts`     — `exportMap`.

Modelling conventions:

  * JS numbers are embedded as exact rationals (`ℚ`); decimal literals such
    as `0.299` become `299/1000`.
  * A `Uint8ClampedArray` store clamps to `[0,255]` and rounds to the nearest
    integer with ties to even; this is `store` below.  Pixel buffers are
    embedded as total functions `ℕ → ℕ` whose values are bytes.
  * `Math.pow` and `Math.sqrt` are platform primitives; they are embedded as
    fields of a `JSMath` record.  Comparisons of the form
    `Math.sqrt s < t` (with `s ≥ 0`, `t > 0`) are embedded as `s < t ^ 2`,
    which is equivalent on the reals.
  * `Date.now()` and `Math.random()` draws are threaded explicitly through an
    environment record, one field per draw site, making the nondeterminism of
    the source an explicit input.
  * JS `Set` membership (used on point objects during clustering) and
    `Array.indexOf` (reference equality) are embedded with structural
    equality; within one frame the engine never manufactures two field-equal
    distinct point objects, so the behaviours coincide on reachable inputs.
-/

/-- Round to the nearest integer, ties to even — the rounding mode used by
`Uint8ClampedArray` element stores. -/
def roundHalfEven (q : ℚ) : ℤ :=
  let f := ⌊q⌋
  let r := q - f
  if r < 1/2 then f
  else if 1/2 < r then f + 1
  else if Even f then f else f + 1

/-- A store into a `Uint8ClampedArray` slot: round to nearest (ties to even)
and clamp into `[0, 255]`. -/
def store (q : ℚ) : ℕ :=
  (min 255 (max 0 (roundHalfEven q))).toNat

/-- `Math.floor`, kept in `ℚ`. -/
def qfloor (q : ℚ) : ℚ := (⌊q⌋ : ℤ)

/-- The `Math.pow` / `Math.sqrt` platform primitives of the JS host. -/
structure JSMath where
  pow : ℚ → ℚ → ℚ
  sqrtQ : ℚ → ℚ

theorem roundHalfEven_natCast (n : ℕ) : roundHalfEven (n : ℚ) = n := by
  simp [roundHalfEven, Int.floor_natCast]

theorem store_natCast (n : ℕ) (h : n ≤ 255) : store (n : ℚ) = n := by
  rw [store, roundHalfEven_natCast]
  have h0 : (0 : ℤ) ≤ (n : ℤ) := Int.ofNat_nonneg n
  have h255 : (n : ℤ) ≤ 255 := by exact_mod_cast h
  rw [max_eq_right h0, min_eq_right h255]
  exact Int.toNat_natCast n

/-- An RGBA frame: row-major pixel buffer, 4 channels per pixel, embedded as
a total function from flat index to byte value (`ImageData`). -/
structure ImageData where
  width : ℕ
  height : ℕ
  data : ℕ → ℕ

/-- A frame is well formed when every buffer entry is a byte. -/
def ImageData.WF (img : ImageData) : Prop := ∀ i, img.data i ≤ 255

namespace ImageProcessor

/-- `ImageProcessor.adjustBrightness`: per channel `min(255, v · factor)`;
the alpha channel (flat index `≡ 3 [MOD 4]`) is untouched. -/
def adjustBrightness (img : ImageData) (factor : ℚ) : ImageData :=
  { img with data := fun i =>
      if i % 4 = 3 then img.data i
      else store (min 255 ((img.data i : ℚ) * factor)) }

/-- `ImageProcessor.adjustContrast`: the classic contrast stretch around 128
with `factorContrast = 259·(c+255) / (255·(259−c))`, `c = (factor−1)·255`. -/
def adjustContrast (img : ImageData) (factor : ℚ) : ImageData :=
  let contrast := (factor - 1) * 255
  let factorContrast := (259 * (contrast + 255)) / (255 * (259 - contrast))
  { img with data := fun i =>
      if i % 4 = 3 then img.data i
      else store (max 0 (min 255 (factorContrast * ((img.data i : ℚ) - 128) + 128))) }

/-- `ImageProcessor.adjustGamma`: `min(255, 255 · (v/255)^(1/gamma))`, the
power being the host `Math.pow`. -/
def adjustGamma (M : JSMath) (img : ImageData) (gamma : ℚ) : ImageData :=
  let gammaCorrection := 1 / gamma
  { img with data := fun i =>
      if i % 4 = 3 then img.data i
      else store (min 255 (255 * M.pow ((img.data i : ℚ) / 255) gammaCorrection)) }

/-- Flat index of channel `c` of pixel `(x, y)` in a frame of width `w`. -/
def chanIdx (w y x c : ℕ) : ℕ := (y * w + x) * 4 + c

/-- `ImageProcessor.denoiseImage`: 3×3 kernel `[[1,2,1],[2,4,2],[1,2,1]]/16`
on the RGB channels of interior pixels, blended with the original by
`strength`; borders and alpha are copied unchanged. -/
def denoiseImage (img : ImageData) (strength : ℚ) : ImageData :=
  let w := img.width
  let h := img.height
  let d : ℕ → ℚ := fun i => (img.data i : ℚ)
  { img with data := fun i =>
      let p := i / 4
      let c := i % 4
      let x := p % w
      let y := p / w
      if c < 3 ∧ 1 ≤ x ∧ x + 1 < w ∧ 1 ≤ y ∧ y + 1 < h then
        let sum :=
          d (chanIdx w (y-1) (x-1) c) * 1 + d (chanIdx w (y-1) x c) * 2 +
          d (chanIdx w (y-1) (x+1) c) * 1 +
          d (chanIdx w y (x-1) c) * 2 + d (chanIdx w y x c) * 4 +
          d (chanIdx w y (x+1) c) * 2 +
          d (chanIdx w (y+1) (x-1) c) * 1 + d (chanIdx w (y+1) x c) * 2 +
          d (chanIdx w (y+1) (x+1) c) * 1
        let filtered := sum / 16
        store (d i * (1 - strength) + filtered * strength)
      else img.data i }

/-- Luminance `0.299·R + 0.587·G + 0.114·B` of pixel `(x, y)`. -/
def lumAt (img : ImageData) (y x : ℕ) : ℚ :=
  (299/1000) * (img.data (chanIdx img.width y x 0) : ℚ) +
  (587/1000) * (img.data (chanIdx img.width y x 1) : ℚ) +
  (114/1000) * (img.data (chanIdx img.width y x 2) : ℚ)

/-- `ImageProcessor.enhanceEdges`: Sobel gradient magnitude added to each RGB
channel of interior pixels, scaled by `strength` and clamped at 255. -/
def enhanceEdges (M : JSMath) (img : ImageData) (strength : ℚ) : ImageData :=
  let w := img.width
  let h := img.height
  { img with data := fun i =>
      let p := i / 4
      let c := i % 4
      let x := p % w
      let y := p / w
      if c < 3 ∧ 1 ≤ x ∧ x + 1 < w ∧ 1 ≤ y ∧ y + 1 < h then
        let gx := lumAt img (y-1) (x+1) + 2 * lumAt img y (x+1) + lumAt img (y+1) (x+1)
                  - lumAt img (y-1) (x-1) - 2 * lumAt img y (x-1) - lumAt img (y+1) (x-1)
        let gy := lumAt img (y+1) (x-1) + 2 * lumAt img (y+1) x + lumAt img (y+1) (x+1)
                  - lumAt img (y-1) (x-1) - 2 * lumAt img (y-1) x - lumAt img (y-1) (x+1)
        let magnitude := M.sqrtQ (gx * gx + gy * gy)
        store (min 255 ((img.data i : ℚ) + magnitude * strength))
      else img.data i }

/-- `ImageProcessor.applyThermalEffect`: per-pixel false-colour remap of the
normalized luminance through four linear segments; writes R, G, B with
`Math.floor`ed values, leaves alpha untouched. -/
def applyThermalEffect (img : ImageData) : ImageData :=
  { img with data := fun i =>
      if i % 4 = 3 then img.data i
      else
        let base := (i / 4) * 4
        let gray : ℚ := (299/1000) * (img.data base : ℚ) +
          (587/1000) * (img.data (base + 1) : ℚ) + (114/1000) * (img.data (base + 2) : ℚ)
        let normalized := gray / 255
        let rgb : ℚ × ℚ × ℚ :=
          if normalized < 1/4 then
            (0, qfloor (normalized * 4 * 100), qfloor (255 - normalized * 4 * 100))
          else if normalized < 1/2 then
            (0, qfloor (255 - (normalized - 1/4) * 4 * 155), qfloor ((normalized - 1/4) * 4 * 255))
          else if normalized < 3/4 then
            (qfloor ((normalized - 1/2) * 4 * 255), 255, 0)
          else
            (255, qfloor (255 - (normalized - 3/4) * 4 * 255), 0)
        if i % 4 = 0 then store rgb.1
        else if i % 4 = 1 then store rgb.2.1
        else store rgb.2.2 }

end ImageProcessor

/-- The night-vision settings record (`NightVisionEnhancement`). -/
structure NightVisionEnhancement where
  brightness : ℚ
  contrast : ℚ
  gamma : ℚ
  noiseReduction : ℚ
  edgeEnhancement : ℚ

namespace Analysis3D

open ImageProcessor

/-- `Analysis3D.enhanceNightVision` with a fully supplied settings record:
brightness → contrast → gamma → denoise → edge enhancement → thermal remap,
strictly in that order.  (The TS version merges partial settings with
defaults first; the claims below always supply every field.) -/
def enhanceNightVision (M : JSMath) (img : ImageData) (config : NightVisionEnhancement) :
    ImageData :=
  applyThermalEffect
    (enhanceEdges M
      (denoiseImage
        (adjustGamma M
          (adjustContrast
            (adjustBrightness img config.brightness)
            config.contrast)
          config.gamma)
        config.noiseReduction)
      config.edgeEnhancement)

end Analysis3D

/-- `DepthPoint` from `ai-models`: screen coordinates, depth, confidence. -/
structure DepthPoint where
  x : ℚ
  y : ℚ
  depth : ℚ
  confidence : ℚ
deriving DecidableEq

/-- An axis-aligned bounding box (`bbox` of a `DetectedObject`). -/
structure BBox where
  x : ℚ
  y : ℚ
  width : ℚ
  height : ℚ
deriving DecidableEq

/-- A 2-D screen point (`center` of a `DetectedObject`). -/
structure Center where
  x : ℚ
  y : ℚ
deriving DecidableEq

/-- `DetectedObject` from `ai-models`. -/
structure DetectedObject where
  id : String
  label : String
  confidence : ℚ
  bbox : BBox
  center : Center
  area : ℚ
  timestamp : ℚ
deriving DecidableEq

namespace Analysis3D

/-- Sum of `|depth[i] − depth[i−1]|` over consecutive entries — the loop body
of `calculateComplexity`. -/
def consecAbsDiffs : List ℚ → ℚ
  | a :: b :: rest => |b - a| + consecAbsDiffs (b :: rest)
  | _ => 0

/-- `Analysis3D.calculateComplexity` (the identical function also appears as
`AIProcessor.calculateComplexity` in `mapping-algorithms.ts`): 0 for fewer
than two samples, else `min(1, Σ|dᵢ−dᵢ₋₁| / n)` where `n` is the number of
samples. -/
def calculateComplexity (depthPoints : List DepthPoint) : ℚ :=
  if depthPoints.length < 2 then 0
  else min 1 (consecAbsDiffs (depthPoints.map (fun p => p.depth)) / depthPoints.length)

/-- The depth samples falling inside an object's bounding box — the filter at
the top of `analyzeMorphology`. -/
def matchedSamples (bbox : BBox) (depthPoints : List DepthPoint) : List DepthPoint :=
  depthPoints.filter fun point =>
    decide (bbox.x ≤ point.x ∧ point.x ≤ bbox.x + bbox.width ∧
            bbox.y ≤ point.y ∧ point.y ≤ bbox.y + bbox.height)

/-- The `complexity` field produced by `analyzeMorphology`: 0 when no depth
sample falls in the object's bbox (the `createDefaultMorphologyAnalysis`
early return), else `calculateComplexity` of the matched samples. -/
def morphologyComplexity (bbox : BBox) (depthPoints : List DepthPoint) : ℚ :=
  let objectDepthPoints := matchedSamples bbox depthPoints
  if objectDepthPoints.isEmpty then 0
  else calculateComplexity objectDepthPoints

/-- Modelled from the spec: §4.5 reads "Complexity = mean absolute difference
between consecutive matched samples' depths, clamped to [0,1]", i.e. the sum
of the `n−1` consecutive absolute differences divided by `n−1`. -/
def specComplexityMean (depthPoints : List DepthPoint) : ℚ :=
  if depthPoints.length < 2 then 0
  else min 1 (consecAbsDiffs (depthPoints.map (fun p => p.depth)) / (depthPoints.length - 1))

end Analysis3D

/-- A 3-component vector (positions, motion deltas, RGB colours). -/
structure Vec3 where
  x : ℚ
  y : ℚ
  z : ℚ
deriving DecidableEq

/-- `MapPoint3D` from `mapping-algorithms.ts`. -/
structure MapPoint3D where
  x : ℚ
  y : ℚ
  z : ℚ
  color : Vec3
  confidence : ℚ
  timestamp : ℚ
deriving DecidableEq

/-- `Landmark` from `mapping-algorithms.ts`. -/
structure Landmark where
  id : String
  position : Vec3
  type : String
  confidence : ℚ
  description : String
  features : List ℚ
deriving DecidableEq

/-- One trajectory sample (`trajectory.points` element). -/
structure TrajPoint where
  position : Vec3
  timestamp : ℚ
  confidence : ℚ
deriving DecidableEq

/-- `Trajectory` from `mapping-algorithms.ts`. -/
structure Trajectory where
  points : List TrajPoint
  totalDistance : ℚ
  averageSpeed : ℚ
deriving DecidableEq

/-- The private state of a `SLAMProcessor` instance. -/
structure SlamState where
  mapPoints : List MapPoint3D
  landmarks : List Landmark
  trajectory : Trajectory
  lastPosition : Vec3

/-- The environment of one `processFrame` call: the `Date.now()` reading, the
`Math.random()` draws (one field per draw site, indexed per cluster for
landmark creation), the host `Math.sqrt`, and the no-hint pseudo-motion
(`Math.sin`/`Math.cos` of the wall clock). -/
structure SlamEnv where
  now : ℚ
  trajRand : ℚ
  pseudoMotion : Vec3
  sqrtQ : ℚ → ℚ
  lmId : ℕ → String
  lmConf : ℕ → ℚ
  catPick : ℕ → ℕ

/-- Snapshot point (`SpatialMap.points` element). -/
structure SnapPoint where
  x : ℚ
  y : ℚ
  z : ℚ
  color : Vec3
deriving DecidableEq

/-- Snapshot landmark (`SpatialMap.landmarks` element). -/
structure SnapLandmark where
  id : String
  position : Vec3
  type : String
  confidence : ℚ
deriving DecidableEq

/-- Snapshot boundary (`SpatialMap.boundaries` element); `type` is one of
the strings `"wall" | "floor" | "ceiling" | "object"`. -/
structure Boundary where
  points : List Vec3
  type : String
deriving DecidableEq

/-- `SpatialMap` from `ai-models`. -/
structure SpatialMap where
  points : List SnapPoint
  landmarks : List SnapLandmark
  boundaries : List Boundary
deriving DecidableEq

/-- Stable descending insertion by a rational key: the element is placed
behind existing elements of equal or larger key — the behaviour of the
stable JS `sort((a, b) => key(b) - key(a))`. -/
def insertByDesc (key : α → ℚ) (a : α) : List α → List α
  | [] => [a]
  | b :: l => if key b < key a then a :: b :: l else b :: insertByDesc key a l

/-- Stable sort, descending by a rational key (JS
`sort((a, b) => key(b) - key(a))`). -/
def sortByDesc (key : α → ℚ) : List α → List α
  | [] => []
  | a :: l => insertByDesc key a (sortByDesc key l)

theorem length_insertByDesc (key : α → ℚ) (a : α) (l : List α) :
    (insertByDesc key a l).length = l.length + 1 := by
  induction l with
  | nil => rfl
  | cons b t ih =>
    rw [insertByDesc]
    split <;> simp [ih]

theorem length_sortByDesc (key : α → ℚ) (l : List α) :
    (sortByDesc key l).length = l.length := by
  induction l with
  | nil => rfl
  | cons a t ih => rw [sortByDesc, length_insertByDesc, ih, List.length_cons]

/-- `Math.min(...xs)` over a (nonempty) list; the empty case is unreachable
in the source. -/
def listMin : List ℚ → ℚ
  | [] => 0
  | a :: t => t.foldl min a

/-- `Math.max(...xs)` over a (nonempty) list. -/
def listMax : List ℚ → ℚ
  | [] => 0
  | a :: t => t.foldl max a

/-- `q.toFixed(2)` — decimal rendering with two fraction digits, used only in
landmark descriptions. -/
def toFixed2 (q : ℚ) : String :=
  let n : ℤ := round (q * 100)
  let a := n.natAbs
  (if n < 0 then "-" else "") ++ toString (a / 100) ++ "." ++
    (if a % 100 < 10 then "0" else "") ++ toString (a % 100)

namespace SLAMProcessor

/-- Squared Euclidean distance between two map points
(`euclideanDistance3D` squared; `√s < t ↔ s < t²` for `t > 0`). -/
def distSq3 (a b : MapPoint3D) : ℚ :=
  (a.x - b.x) ^ 2 + (a.y - b.y) ^ 2 + (a.z - b.z) ^ 2

/-- Squared Euclidean distance between two position triples
(`euclideanDistance` squared). -/
def distSqV (a b : Vec3) : ℚ :=
  (a.x - b.x) ^ 2 + (a.y - b.y) ^ 2 + (a.z - b.z) ^ 2

/-- The JS `reduce((a, b) => a.confidence > b.confidence ? a : b)` over a
nonempty list (empty case unreachable: the source only reduces a list it
has just checked to be nonempty). -/
def reduceMaxConf : List MapPoint3D → MapPoint3D
  | [] => ⟨0, 0, 0, ⟨0, 0, 0⟩, 0, 0⟩
  | a :: t => t.foldl (fun acc b => if acc.confidence > b.confidence then acc else b) a

/-- One iteration of the `addPointsToMap` loop: insert a single new point
with the 0.05 density filter (`euclideanDistance3D < 0.05`, embedded as
squared distance `< (1/20)²`). -/
def addPointToMap (mapPoints : List MapPoint3D) (point : MapPoint3D) : List MapPoint3D :=
  let nearbyPoints := mapPoints.filter fun existing => decide (distSq3 point existing < (1/20) ^ 2)
  if nearbyPoints.length = 0 then
    mapPoints ++ [point]
  else
    let bestExisting := reduceMaxConf nearbyPoints
    if point.confidence > bestExisting.confidence then
      mapPoints.set (mapPoints.indexOf bestExisting) point
    else
      mapPoints

/-- `SLAMProcessor.addPointsToMap`: fold the single-point insertion over the
new points, in order. -/
def addPointsToMap (mapPoints : List MapPoint3D) (newPoints : List MapPoint3D) :
    List MapPoint3D :=
  newPoints.foldl addPointToMap mapPoints

/-- `SLAMProcessor.estimateCameraMovement`: scale a supplied motion hint by
0.01, else fall back to the wall-clock pseudo-motion (the `Math.sin`/`cos`
expressions, supplied by the environment). -/
def estimateCameraMovement (motionVector : Option Vec3) (env : SlamEnv) : Vec3 :=
  match motionVector with
  | some v => ⟨v.x * (1/100), v.y * (1/100), v.z * (1/100)⟩
  | none => env.pseudoMotion

/-- `SLAMProcessor.updateTrajectory`: append a sample at the new position
(confidence `0.8 + random·0.2`), accumulate the Euclidean norm of the
movement, evict the oldest sample past 1000; returns the new trajectory and
the new `lastPosition`. -/
def updateTrajectory (traj : Trajectory) (lastPosition : Vec3) (movement : Vec3)
    (env : SlamEnv) : Trajectory × Vec3 :=
  let newPosition : Vec3 :=
    ⟨lastPosition.x + movement.x, lastPosition.y + movement.y, lastPosition.z + movement.z⟩
  let distance := env.sqrtQ (movement.x ^ 2 + movement.y ^ 2 + movement.z ^ 2)
  let pts1 := traj.points ++ [⟨newPosition, env.now, 4/5 + env.trajRand * (1/5)⟩]
  let pts2 := if 1000 < pts1.length then pts1.drop 1 else pts1
  (⟨pts2, traj.totalDistance + distance, traj.averageSpeed⟩, newPosition)

/-- Read channel `q` of the frame buffer: the JS `data[pixelIndex] || 0`,
where a fractional or out-of-range index yields `undefined` and hence 0. -/
def pixelAt (img : ImageData) (q : ℚ) : ℚ :=
  if q.den = 1 ∧ 0 ≤ q.num ∧ q.num < 4 * img.width * img.height then
    (img.data q.num.toNat : ℚ)
  else 0

/-- `SLAMProcessor.convertDepthTo3D`: pinhole back-projection with focal
length `width/2`, translated by the camera position, colour sampled from the
frame. -/
def convertDepthTo3D (depthPoints : List DepthPoint) (img : ImageData)
    (lastPosition : Vec3) (env : SlamEnv) : List MapPoint3D :=
  let focalLength := (img.width : ℚ) * (1/2)
  depthPoints.map fun depthPoint =>
    let xCam := (depthPoint.x - img.width / 2) / focalLength * depthPoint.depth
    let yCam := ((img.height : ℚ) / 2 - depthPoint.y) / focalLength * depthPoint.depth
    let zCam := depthPoint.depth
    let pixelIndex := (depthPoint.y * (img.width : ℚ) + depthPoint.x) * 4
    { x := lastPosition.x + xCam
      y := lastPosition.y + yCam
      z := lastPosition.z + zCam
      color := ⟨pixelAt img pixelIndex, pixelAt img (pixelIndex + 1), pixelAt img (pixelIndex + 2)⟩
      confidence := depthPoint.confidence
      timestamp := env.now }

/-- `visited.add(p)` on a JS `Set`, embedded as ordered list insertion. -/
def insertSet (visited : List MapPoint3D) (p : MapPoint3D) : List MapPoint3D :=
  if p ∈ visited then visited else visited ++ [p]

/-- Body of the `for (const neighbor of neighbors)` loop of `expandCluster`:
push the neighbour, then absorb up to 3 of its own unvisited neighbours. -/
def expandOne (points : List MapPoint3D) (threshold : ℚ)
    (acc : List MapPoint3D × List MapPoint3D) (neighbor : MapPoint3D) :
    List MapPoint3D × List MapPoint3D :=
  let cluster := acc.1 ++ [neighbor]
  let visited := insertSet acc.2 neighbor
  let subNeighbors :=
    (points.filter fun p => decide (p ∉ visited ∧ distSq3 neighbor p < threshold ^ 2)).take 3
  subNeighbors.foldl
    (fun acc2 s => if s ∈ acc2.2 then acc2 else (acc2.1 ++ [s], acc2.2 ++ [s]))
    (cluster, visited)

/-- `SLAMProcessor.expandCluster` (threshold compared on squared distance):
returns the cluster and the updated visited set. -/
def expandCluster (point : MapPoint3D) (points : List MapPoint3D) (threshold : ℚ)
    (visited : List MapPoint3D) : List MapPoint3D × List MapPoint3D :=
  let visited0 := insertSet visited point
  let neighbors := points.filter fun p => decide (p ∉ visited0 ∧ distSq3 point p < threshold ^ 2)
  neighbors.foldl (expandOne points threshold) ([point], visited0)

/-- `SLAMProcessor.clusterPoints`: 0.1-threshold expansion from each not yet
visited point; clusters of more than 5 points are kept. -/
def clusterPoints (points : List MapPoint3D) : List (List MapPoint3D) :=
  (points.foldl
    (fun st point =>
      if point ∈ st.1 then st
      else
        let r := expandCluster point points (1/10) st.1
        if 5 < r.1.length then (r.2, st.2 ++ [r.1]) else (r.2, st.2))
    (([] : List MapPoint3D), ([] : List (List MapPoint3D)))).2

/-- `SLAMProcessor.calculateCentroid`. -/
def calculateCentroid (points : List MapPoint3D) : Vec3 :=
  let sum := points.foldl (fun acc p => (acc.1 + p.x, acc.2.1 + p.y, acc.2.2 + p.z))
    ((0 : ℚ), (0 : ℚ), (0 : ℚ))
  ⟨sum.1 / points.length, sum.2.1 / points.length, sum.2.2 / points.length⟩

/-- The bounds record computed by `SLAMProcessor.calculateBounds`. -/
structure Bounds where
  minX : ℚ
  maxX : ℚ
  minY : ℚ
  maxY : ℚ
  minZ : ℚ
  maxZ : ℚ
  width : ℚ
  height : ℚ
  depth : ℚ

/-- `SLAMProcessor.calculateBounds`. -/
def calculateBounds (points : List MapPoint3D) : Bounds :=
  let xs := points.map fun p => p.x
  let ys := points.map fun p => p.y
  let zs := points.map fun p => p.z
  { minX := listMin xs, maxX := listMax xs
    minY := listMin ys, maxY := listMax ys
    minZ := listMin zs, maxZ := listMax zs
    width := listMax xs - listMin xs
    height := listMax ys - listMin ys
    depth := listMax zs - listMin zs }

/-- `SLAMProcessor.classifyLandmark`; the random pick among the five generic
categories is the environment draw `catPick` for this cluster. -/
def classifyLandmark (env : SlamEnv) (clusterIdx : ℕ) (cluster : List MapPoint3D) : String :=
  let bounds := calculateBounds cluster
  let volume := bounds.width * bounds.height * bounds.depth
  if bounds.width > bounds.height ∧ bounds.width > bounds.depth then "parede"
  else if volume < 1/100 then "superfície"
  else ["parede", "canto", "objeto", "superfície", "estrutura"].getD
    (env.catPick clusterIdx % 5) "parede"

/-- `SLAMProcessor.calculateAverageColor`. -/
def calculateAverageColor (points : List MapPoint3D) : Vec3 :=
  let sum := points.foldl
    (fun acc p => (acc.1 + p.color.x, acc.2.1 + p.color.y, acc.2.2 + p.color.z))
    ((0 : ℚ), (0 : ℚ), (0 : ℚ))
  ⟨sum.1 / points.length, sum.2.1 / points.length, sum.2.2 / points.length⟩

/-- `SLAMProcessor.generateLandmarkDescription`. -/
def generateLandmarkDescription (landmarkType : String) (cluster : List MapPoint3D) : String :=
  let bounds := calculateBounds cluster
  landmarkType ++ " detectado com " ++ toString cluster.length ++
    " pontos, dimensões aproximadas: " ++ toFixed2 bounds.width ++ "m x " ++
    toFixed2 bounds.height ++ "m x " ++ toFixed2 bounds.depth ++ "m"

/-- `SLAMProcessor.extractLandmarkFeatures`. -/
def extractLandmarkFeatures (cluster : List MapPoint3D) : List ℚ :=
  let bounds := calculateBounds cluster
  let centroid := calculateCentroid cluster
  let avgColor := calculateAverageColor cluster
  [bounds.width, bounds.height, bounds.depth,
   centroid.x, centroid.y, centroid.z,
   (cluster.length : ℚ),
   avgColor.x / 255, avgColor.y / 255, avgColor.z / 255]

/-- `SLAMProcessor.detectLandmarks`: cluster the new points, create a
landmark per surviving cluster unless one already exists within 0.2 of the
centroid, then keep the 50 highest-confidence landmarks.  The landmark id
string and the `0.7 + random·0.3` confidence draw come from the environment,
indexed by cluster position. -/
def detectLandmarks (env : SlamEnv) (points : List MapPoint3D)
    (landmarks : List Landmark) : List Landmark :=
  let clusters := clusterPoints points
  let afterAdds := (clusters.foldl
    (fun st cluster =>
      if cluster.length < 10 then (st.1 + 1, st.2)
      else
        let centeroid := calculateCentroid cluster
        let landmarkType := classifyLandmark env st.1 cluster
        match st.2.find? (fun lm => decide (distSqV lm.position centeroid < (1/5) ^ 2)) with
        | some _ => (st.1 + 1, st.2)
        | none =>
          (st.1 + 1, st.2 ++
            [{ id := env.lmId st.1
               position := centeroid
               type := landmarkType
               confidence := 7/10 + env.lmConf st.1 * (3/10)
               description := generateLandmarkDescription landmarkType cluster
               features := extractLandmarkFeatures cluster }]))
    ((0 : ℕ), landmarks)).2
  (sortByDesc (fun lm => lm.confidence) afterAdds).take 50

/-- `SLAMProcessor.optimizeMap`: drop points 30 s or older, or with
confidence ≤ 0.3; if more than 10000 remain, keep the 10000 of highest
confidence. -/
def optimizeMap (now : ℚ) (mapPoints : List MapPoint3D) : List MapPoint3D :=
  let filtered := mapPoints.filter fun point =>
    decide (now - point.timestamp < 30000 ∧ point.confidence > 3/10)
  if 10000 < filtered.length then
    (sortByDesc (fun p => p.confidence) filtered).take 10000
  else filtered

/-- `SLAMProcessor.generateBoundaries`: the floor-plane estimate from up to
100 points lying at least 0.5 below the camera height. -/
def generateBoundaries (st : SlamState) : List Boundary :=
  let floorPoints :=
    (st.mapPoints.filter fun p => decide (p.y < st.lastPosition.y - 1/2)).take 100
  if 10 < floorPoints.length then
    [{ points := floorPoints.map fun p => ⟨p.x, p.y, p.z⟩, type := "floor" }]
  else []

/-- `SLAMProcessor.getCurrentMap`. -/
def getCurrentMap (st : SlamState) : SpatialMap :=
  { points := st.mapPoints.map fun p => ⟨p.x, p.y, p.z, p.color⟩
    landmarks := st.landmarks.map fun l => ⟨l.id, l.position, l.type, l.confidence⟩
    boundaries := generateBoundaries st }

/-- `SLAMProcessor.processFrame`: motion estimate → trajectory/pose update →
depth back-projection → deduplicating insertion → landmark detection → map
maintenance → snapshot. -/
def processFrame (st : SlamState) (imageData : ImageData) (depthPoints : List DepthPoint)
    (motionVector : Option Vec3) (env : SlamEnv) : SlamState × SpatialMap :=
  let cameraMovement := estimateCameraMovement motionVector env
  let tr := updateTrajectory st.trajectory st.lastPosition cameraMovement env
  let new3DPoints := convertDepthTo3D depthPoints imageData tr.2 env
  let map1 := addPointsToMap st.mapPoints new3DPoints
  let landmarks1 := detectLandmarks env new3DPoints st.landmarks
  let map2 := optimizeMap env.now map1
  let st1 : SlamState :=
    { mapPoints := map2, landmarks := landmarks1, trajectory := tr.1, lastPosition := tr.2 }
  (st1, getCurrentMap st1)

/-- The state of a freshly constructed `SLAMProcessor` (also the state after
`resetMap`). -/
def slamInit : SlamState :=
  { mapPoints := [], landmarks := [], trajectory := ⟨[], 0, 0⟩, lastPosition := ⟨0, 0, 0⟩ }

/-- All inputs of one `processFrame` call. -/
structure FrameInput where
  imageData : ImageData
  depthPoints : List DepthPoint
  motionVector : Option Vec3
  env : SlamEnv

/-- One `processFrame` call, keeping only the state. -/
def stepFrame (st : SlamState) (inp : FrameInput) : SlamState :=
  (processFrame st inp.imageData inp.depthPoints inp.motionVector inp.env).1

/-- A whole session: fold `processFrame` over a list of frame inputs from
the freshly constructed state. -/
def runFrames (st : SlamState) (inputs : List FrameInput) : SlamState :=
  inputs.foldl stepFrame st

end SLAMProcessor

/-- Squared Euclidean distance between two screen centers (the tracker's
`Math.sqrt(dx² + dy²)`, squared; `√s < 100 ↔ s < 100²`). -/
def distSqC (a b : Center) : ℚ := (a.x - b.x) ^ 2 + (a.y - b.y) ^ 2

/-- The tracker's association test for a new object against an old one:
same label and center distance strictly below 100 pixels. -/
def matchesB (newObj oldObj : DetectedObject) : Bool :=
  decide (oldObj.label = newObj.label ∧ distSqC newObj.center oldObj.center < 100 ^ 2)

/-- `trackObjects` from `use-ai-detection.ts`: with tracking disabled or no
previous objects, return the new objects unchanged; otherwise rewrite each
new object's id to that of the first previous object (in list order) that
matches, keeping the fresh id when none does. -/
def trackObjects (enableTracking : Bool) (newObjects previousObjects : List DetectedObject) :
    List DetectedObject :=
  if !enableTracking ∨ previousObjects.isEmpty then newObjects
  else
    newObjects.map fun newObj =>
      match previousObjects.find? (fun oldObj => matchesB newObj oldObj) with
      | some similarObj => { newObj with id := similarObj.id }
      | none => newObj

/-- The `performanceRef` record of `use-mapping.ts`. -/
structure SessionPerf where
  frameCount : ℕ
  totalProcessingTime : ℚ
  startTime : ℚ

/-- The 5-field statistics record of `use-mapping.ts` (copied verbatim into
the export). -/
structure MappingStatistics where
  totalPoints : ℕ
  totalLandmarks : ℕ
  mappedArea : ℚ
  processingTime : ℤ
  accuracy : ℚ
deriving DecidableEq

/-- `sessionInfo` of the exported snapshot. -/
structure SessionInfo where
  duration : ℤ
  frameCount : ℕ
  avgProcessingTime : ℤ
deriving DecidableEq

/-- The `map` object of the exported snapshot. -/
structure ExportedMap where
  points : List SnapPoint
  landmarks : List SnapLandmark
  boundaries : List Boundary
deriving DecidableEq

/-- The trajectory object of the exported snapshot: the session trajectory
spread, plus the derived `totalTime` and `averageSpeed`. -/
structure ExportedTrajectory where
  points : List TrajPoint
  totalDistance : ℚ
  averageSpeed : ℚ
  totalTime : ℚ
deriving DecidableEq

/-- The `metadata` tag of the exported snapshot. -/
structure ExportMetadata where
  version : String
  format : String
  coordinateSystem : String
deriving DecidableEq

/-- The full object returned by `exportMap`. -/
structure ExportSnapshot where
  timestamp : String
  sessionInfo : SessionInfo
  map : ExportedMap
  trajectory : ExportedTrajectory
  statistics : MappingStatistics
  metadata : ExportMetadata
deriving DecidableEq

/-- `exportMap` from `use-mapping.ts`.  `nowMs` is the `performance.now()`
reading and `isoNow` the `new Date().toISOString()` string of the call. -/
def exportMap (currentMap : SpatialMap) (trajectory : Trajectory)
    (statistics : MappingStatistics) (perf : SessionPerf) (nowMs : ℚ) (isoNow : String) :
    ExportSnapshot :=
  let sessionDuration := nowMs - perf.startTime
  { timestamp := isoNow
    sessionInfo :=
      { duration := round sessionDuration
        frameCount := perf.frameCount
        avgProcessingTime :=
          if perf.frameCount > 0 then round (perf.totalProcessingTime / perf.frameCount)
          else 0 }
    map :=
      { points := currentMap.points
        landmarks := currentMap.landmarks
        boundaries := currentMap.boundaries }
    trajectory :=
      { points := trajectory.points
        totalDistance := trajectory.totalDistance
        averageSpeed := trajectory.totalDistance / (sessionDuration / 1000)
        totalTime := sessionDuration / 1000 }
    statistics := statistics
    metadata :=
      { version := "1.0", format := "SLAM_JSON", coordinateSystem := "camera_relative" } }

/-! ### Concrete fixtures used by counterexamples and witnesses -/

/-- Map point at the origin, confidence 0.5. -/
def cpA : MapPoint3D := ⟨0, 0, 0, ⟨0, 0, 0⟩, 1/2, 0⟩

/-- Map point at x = 0.08 (0.08 ≥ 0.05 away from `cpA`), confidence 0.5. -/
def cpB : MapPoint3D := ⟨2/25, 0, 0, ⟨0, 0, 0⟩, 1/2, 0⟩

/-- Map point at x = 0.04 (within 0.05 of both `cpA` and `cpB`),
confidence 0.9. -/
def cpC : MapPoint3D := ⟨1/25, 0, 0, ⟨0, 0, 0⟩, 9/10, 0⟩

/-- A 10×10 bounding box at the origin. -/
def cbb : BBox := ⟨0, 0, 10, 10⟩

/-- Two depth samples inside `cbb` with depths 0 and 1. -/
def cds : List DepthPoint := [⟨1, 1, 0, 1⟩, ⟨2, 2, 1, 1⟩]

/-- A new detection at the origin with label "pessoa" and fresh id "new". -/
def tN : DetectedObject :=
  ⟨"new", "pessoa", 9/10, ⟨0, 0, 10, 10⟩, ⟨0, 0⟩, 100, 0⟩

/-- A previous object 90 px away from `tN` (within the 100 px tolerance),
listed first. -/
def tP1 : DetectedObject :=
  ⟨"p1", "pessoa", 9/10, ⟨90, 0, 10, 10⟩, ⟨90, 0⟩, 100, 0⟩

/-- A previous object exactly at `tN`'s center (the nearest), listed second. -/
def tP2 : DetectedObject :=
  ⟨"p2", "pessoa", 9/10, ⟨0, 0, 10, 10⟩, ⟨0, 0⟩, 100, 0⟩

/-- First new detection, 5 px left of `uP`. -/
def uN1 : DetectedObject :=
  ⟨"n1", "copo", 9/10, ⟨0, 0, 10, 10⟩, ⟨0, 0⟩, 100, 0⟩

/-- Second new detection, 5 px right of `uP`. -/
def uN2 : DetectedObject :=
  ⟨"n2", "copo", 9/10, ⟨10, 0, 10, 10⟩, ⟨10, 0⟩, 100, 0⟩

/-- A single previous object matched by both `uN1` and `uN2`. -/
def uP : DetectedObject :=
  ⟨"prev", "copo", 9/10, ⟨5, 0, 10, 10⟩, ⟨5, 0⟩, 100, 0⟩

/-- A map state holding one point created at time 0 with confidence 0.9. -/
def stStale : SlamState :=
  { mapPoints := [⟨1, 1, 1, ⟨0, 0, 0⟩, 9/10, 0⟩]
    landmarks := []
    trajectory := ⟨[], 0, 0⟩
    lastPosition := ⟨0, 0, 0⟩ }

/-- An environment whose wall clock reads 40000 ms (more than 30 s after the
stale point's creation); every stochastic draw is fixed. -/
def envStale : SlamEnv :=
  { now := 40000, trajRand := 0, pseudoMotion := ⟨0, 0, 0⟩, sqrtQ := fun _ => 0
    lmId := fun _ => "landmark", lmConf := fun _ => 0, catPick := fun _ => 0 }

/-- A 1×1 all-black frame. -/
def imgTiny : ImageData := ⟨1, 1, fun _ => 0⟩

/-- A platform record whose power function is the identity in the exponent-1
case (as `Math.pow` is). -/
def jsMathId : JSMath := ⟨fun x _ => x, fun _ => 0⟩

/-! ### Helper lemmas about the insertion step -/

theorem foldl_maxconf_ge (t : List MapPoint3D) (a : MapPoint3D) :
    a.confidence ≤
      (t.foldl (fun acc b => if acc.confidence > b.confidence then acc else b) a).confidence := by
  induction t generalizing a with
  | nil => exact le_refl _
  | cons b t ih =>
    rw [List.foldl_cons]
    refine le_trans ?_ (ih _)
    by_cases h : a.confidence > b.confidence
    · simp [h]
    · simp [h]
      exact le_of_not_lt h

theorem foldl_maxconf_mem_ge (t : List MapPoint3D) (a x : MapPoint3D) (hx : x ∈ t) :
    x.confidence ≤
      (t.foldl (fun acc b => if acc.confidence > b.confidence then acc else b) a).confidence := by
  induction t generalizing a with
  | nil => cases hx
  | cons b t ih =>
    rw [List.foldl_cons]
    rcases List.mem_cons.mp hx with rfl | hx'
    · refine le_trans ?_ (foldl_maxconf_ge t _)
      by_cases h : a.confidence > x.confidence
      · simp [h]
        exact le_of_lt h
      · simp [h]
    · exact ih _ hx'

theorem reduceMaxConf_conf_ge (l : List MapPoint3D) (x : MapPoint3D) (hx : x ∈ l) :
    x.confidence ≤ (SLAMProcessor.reduceMaxConf l).confidence := by
  match l with
  | [] => cases hx
  | a :: t =>
    rw [SLAMProcessor.reduceMaxConf]
    rcases List.mem_cons.mp hx with rfl | hx'
    · exact foldl_maxconf_ge t x
    · exact foldl_maxconf_mem_ge t a x hx'

theorem foldl_maxconf_mem (t : List MapPoint3D) (a : MapPoint3D) :
    (t.foldl (fun acc b => if acc.confidence > b.confidence then acc else b) a) = a ∨
      (t.foldl (fun acc b => if acc.confidence > b.confidence then acc else b) a) ∈ t := by
  induction t generalizing a with
  | nil => exact Or.inl rfl
  | cons b t ih =>
    rw [List.foldl_cons]
    rcases ih (if a.confidence > b.confidence then a else b) with h | h
    · rw [h]
      by_cases hc : a.confidence > b.confidence
      · rw [if_pos hc]
        exact Or.inl rfl
      · rw [if_neg hc]
        exact Or.inr (List.mem_cons_self b t)
    · exact Or.inr (List.mem_cons_of_mem b h)

theorem reduceMaxConf_mem (l : List MapPoint3D) (h : l ≠ []) :
    SLAMProcessor.reduceMaxConf l ∈ l := by
  match l with
  | [] => exact absurd rfl h
  | a :: t =>
    rw [SLAMProcessor.reduceMaxConf]
    rcases foldl_maxconf_mem t a with h1 | h1
    · rw [h1]
      exact List.mem_cons_self a t
    · exact List.mem_cons_of_mem a h1

/-- Inserting a point that is already a member of the map is a no-op: the
point is within 0.05 of itself, and the best nearby confidence is at least
its own, so the strict improvement test fails. -/
theorem addPointToMap_mem (m : List MapPoint3D) (p : MapPoint3D) (hp : p ∈ m) :
    SLAMProcessor.addPointToMap m p = m := by
  have hself : (decide (SLAMProcessor.distSq3 p p < (1/20) ^ 2)) = true := by
    simp [SLAMProcessor.distSq3]
  have hpmem :
      p ∈ m.filter (fun existing => decide (SLAMProcessor.distSq3 p existing < (1/20) ^ 2)) :=
    List.mem_filter.mpr ⟨hp, hself⟩
  have hne :
      ¬ (m.filter (fun existing => decide (SLAMProcessor.distSq3 p existing < (1/20) ^ 2))).length
        = 0 := by
    simpa [List.length_eq_zero] using List.ne_nil_of_mem hpmem
  have hle := reduceMaxConf_conf_ge _ _ hpmem
  simp only [SLAMProcessor.addPointToMap]
  rw [if_neg hne, if_neg (not_lt.mpr hle)]

/-! ### C1 — map insertion deduplication -/

/-- C1 (counterexample): the insertion step CAN retain two distinct points
closer than 0.05.  Starting from the empty map, inserting `cpA` (x = 0),
`cpB` (x = 0.08) and then the higher-confidence `cpC` (x = 0.04) makes `cpC`
replace only `cpB` (the best-confidence nearby point per the reduce), so the
final map holds both `cpA` and `cpC`, which are 0.04 < 0.05 apart. -/
theorem addPointsToMap_retains_near_pair :
    cpA ∈ SLAMProcessor.addPointsToMap [] [cpA, cpB, cpC] ∧
    cpC ∈ SLAMProcessor.addPointsToMap [] [cpA, cpB, cpC] ∧
    cpA ≠ cpC ∧ SLAMProcessor.distSq3 cpA cpC < (1/20) ^ 2 := by
  have step1 : SLAMProcessor.addPointToMap [] cpA = [cpA] := by
    simp [SLAMProcessor.addPointToMap]
  have hBA : decide (SLAMProcessor.distSq3 cpB cpA < (1/20) ^ 2) = false := by
    rw [decide_eq_false_iff_not]
    norm_num [SLAMProcessor.distSq3, cpA, cpB]
  have step2 : SLAMProcessor.addPointToMap [cpA] cpB = [cpA, cpB] := by
    simp only [SLAMProcessor.addPointToMap, List.filter_cons, List.filter_nil, hBA]
    simp
  have hCA : decide (SLAMProcessor.distSq3 cpC cpA < (1/20) ^ 2) = true := by
    rw [decide_eq_true_eq]
    norm_num [SLAMProcessor.distSq3, cpA, cpC]
  have hCB : decide (SLAMProcessor.distSq3 cpC cpB < (1/20) ^ 2) = true := by
    rw [decide_eq_true_eq]
    norm_num [SLAMProcessor.distSq3, cpB, cpC]
  have hred : SLAMProcessor.reduceMaxConf [cpA, cpB] = cpB := by
    have h : ¬ cpA.confidence > cpB.confidence := by norm_num [cpA, cpB]
    simp [SLAMProcessor.reduceMaxConf, h]
  have hAB : cpA ≠ cpB := by
    intro h
    have := congrArg MapPoint3D.x h
    norm_num [cpA, cpB] at this
  have hidx : List.indexOf cpB [cpA, cpB] = 1 := by
    rw [List.indexOf_cons_ne _ (by simpa using hAB)]
    simp [List.indexOf_cons_self]
  have step3 : SLAMProcessor.addPointToMap [cpA, cpB] cpC = [cpA, cpC] := by
    have hconf : cpC.confidence > cpB.confidence := by norm_num [cpB, cpC]
    simp only [SLAMProcessor.addPointToMap, List.filter_cons, List.filter_nil, hCA, hCB,
      if_true]
    rw [if_neg (by simp), hred, hidx, if_pos hconf]
    rfl
  have heval : SLAMProcessor.addPointsToMap [] [cpA, cpB, cpC] = [cpA, cpC] := by
    show SLAMProcessor.addPointToMap
      (SLAMProcessor.addPointToMap (SLAMProcessor.addPointToMap [] cpA) cpB) cpC = _
    rw [step1, step2, step3]
  have hAC : cpA ≠ cpC := by
    intro h
    have := congrArg MapPoint3D.x h
    norm_num [cpA, cpC] at this
  have hd : SLAMProcessor.distSq3 cpA cpC < (1/20) ^ 2 := by
    norm_num [SLAMProcessor.distSq3, cpA, cpC]
  exact ⟨by rw [heval]; simp, by rw [heval]; simp, hAC, hd⟩

/-- C1 (amended): a new point is appended to the map only when no existing
point lies within 0.05 of it; when one or more nearby points exist, the map
length is unchanged (the new point either replaces the best-confidence
nearby point in place or is dropped).  The post-insertion map may still
contain two distinct points within 0.05 of each other, as the counterexample
shows. -/
theorem addPointToMap_growth_iff_no_near (m : List MapPoint3D) (point : MapPoint3D) :
    if ∀ q ∈ m, ¬ SLAMProcessor.distSq3 point q < (1/20) ^ 2 then
      SLAMProcessor.addPointToMap m point = m ++ [point]
    else (SLAMProcessor.addPointToMap m point).length = m.length := by
  split
  case isTrue h =>
    have hnil :
        m.filter (fun existing => decide (SLAMProcessor.distSq3 point existing < (1/20) ^ 2))
          = [] := by
      rw [List.filter_eq_nil_iff]
      intro a ha
      simpa using h a ha
    simp only [SLAMProcessor.addPointToMap]
    rw [hnil]
    simp
  case isFalse h =>
    push_neg at h
    obtain ⟨q, hq, hlt⟩ := h
    have hmem :
        q ∈ m.filter (fun existing => decide (SLAMProcessor.distSq3 point existing < (1/20) ^ 2)) :=
      List.mem_filter.mpr ⟨hq, by simpa using hlt⟩
    have hne :
        ¬ (m.filter
            (fun existing => decide (SLAMProcessor.distSq3 point existing < (1/20) ^ 2))).length
          = 0 := by
      simpa [List.length_eq_zero] using List.ne_nil_of_mem hmem
    simp only [SLAMProcessor.addPointToMap]
    rw [if_neg hne]
    split
    · exact List.length_set m _ point
    · rfl

/-! ### C7 — idempotence of inserting the same point twice -/

/-- C7 (confirmed): inserting the identical point immediately again changes
nothing — the second insertion finds the point itself among the nearby
points, whose best confidence is therefore at least its own, so the strict
improvement test fails and the map (hence its point count) is exactly that
after the first insertion. -/
theorem addPointToMap_idempotent (m : List MapPoint3D) (p : MapPoint3D) :
    SLAMProcessor.addPointsToMap (SLAMProcessor.addPointsToMap m [p]) [p] =
      SLAMProcessor.addPointsToMap m [p] := by
  show SLAMProcessor.addPointToMap (SLAMProcessor.addPointToMap m p) p =
    SLAMProcessor.addPointToMap m p
  by_cases h0 :
      (m.filter (fun existing => decide (SLAMProcessor.distSq3 p existing < (1/20) ^ 2))).length
        = 0
  · have heq : SLAMProcessor.addPointToMap m p = m ++ [p] := by
      simp only [SLAMProcessor.addPointToMap]
      rw [if_pos h0]
    rw [heq]
    exact addPointToMap_mem _ _ (by simp)
  · by_cases h1 : p.confidence >
        (SLAMProcessor.reduceMaxConf
          (m.filter (fun existing =>
            decide (SLAMProcessor.distSq3 p existing < (1/20) ^ 2)))).confidence
    · have hbm : SLAMProcessor.reduceMaxConf
          (m.filter (fun existing =>
            decide (SLAMProcessor.distSq3 p existing < (1/20) ^ 2))) ∈ m := by
        refine List.mem_of_mem_filter (reduceMaxConf_mem _ ?_)
        intro hnil
        rw [hnil] at h0
        exact h0 rfl
      have hidx := List.indexOf_lt_length.mpr hbm
      have heq : SLAMProcessor.addPointToMap m p =
          m.set (m.indexOf (SLAMProcessor.reduceMaxConf
            (m.filter (fun existing =>
              decide (SLAMProcessor.distSq3 p existing < (1/20) ^ 2))))) p := by
        simp only [SLAMProcessor.addPointToMap]
        rw [if_neg h0, if_pos h1]
      rw [heq]
      exact addPointToMap_mem _ _ (List.mem_set m _ hidx p)
    · have heq : SLAMProcessor.addPointToMap m p = m := by
        simp only [SLAMProcessor.addPointToMap]
        rw [if_neg h0, if_neg h1]
      rw [heq]
      exact heq

/-! ### C6 — morphology complexity score -/

/-- The loop of `calculateComplexity` as an indexed sum: the sum of the
`n − 1` consecutive absolute differences of a list. -/
theorem consecAbsDiffs_eq_sum (l : List ℚ) :
    Analysis3D.consecAbsDiffs l =
      Finset.sum (Finset.range (l.length - 1))
        (fun i => |l.getD (i + 1) 0 - l.getD i 0|) := by
  induction l with
  | nil => simp [Analysis3D.consecAbsDiffs]
  | cons a l ih =>
    cases l with
    | nil => simp [Analysis3D.consecAbsDiffs]
    | cons b t =>
      rw [Analysis3D.consecAbsDiffs, ih]
      have hlen : (a :: b :: t).length - 1 = t.length + 1 := by simp
      have hlen2 : (b :: t).length - 1 = t.length := by simp
      rw [hlen, hlen2, Finset.sum_range_succ']
      simp only [List.getD_cons_succ, List.getD_cons_zero]
      ring

/-- C6 (counterexample): with two matched samples of depths 0 and 1, the
code's complexity is `min(1, 1/2) = 1/2` (sum of differences divided by the
number of samples n), while the claimed mean over the n−1 consecutive pairs
would be `min(1, 1/1) = 1`. -/
theorem morphologyComplexity_div_n_counterexample :
    Analysis3D.morphologyComplexity cbb cds = 1/2 ∧
    Analysis3D.specComplexityMean (Analysis3D.matchedSamples cbb cds) = 1 ∧
    (1/2 : ℚ) ≠ 1 := by
  have hm : Analysis3D.matchedSamples cbb cds = cds := by
    have h1 : (decide (cbb.x ≤ (1 : ℚ) ∧ (1 : ℚ) ≤ cbb.x + cbb.width ∧
        cbb.y ≤ (1 : ℚ) ∧ (1 : ℚ) ≤ cbb.y + cbb.height)) = true := by
      rw [decide_eq_true_eq]
      norm_num [cbb]
    have h2 : (decide (cbb.x ≤ (2 : ℚ) ∧ (2 : ℚ) ≤ cbb.x + cbb.width ∧
        cbb.y ≤ (2 : ℚ) ∧ (2 : ℚ) ≤ cbb.y + cbb.height)) = true := by
      rw [decide_eq_true_eq]
      norm_num [cbb]
    simp only [Analysis3D.matchedSamples, cds, List.filter_cons, List.filter_nil, h1, h2,
      if_true]
  constructor
  · rw [Analysis3D.morphologyComplexity, hm]
    have : ¬ cds.length < 2 := by norm_num [cds]
    rw [if_neg (by simp [cds]), Analysis3D.calculateComplexity, if_neg this]
    norm_num [cds, Analysis3D.consecAbsDiffs]
  constructor
  · rw [hm, Analysis3D.specComplexityMean]
    have : ¬ cds.length < 2 := by norm_num [cds]
    rw [if_neg this]
    norm_num [cds, Analysis3D.consecAbsDiffs]
  · norm_num

/-- C6 (amended): for an object whose bounding box matches n ≥ 2 depth
samples, the Morphology Analyzer's complexity equals the SUM of the n−1
consecutive absolute depth differences divided by n (the number of matched
samples, not n−1), clamped to [0, 1]. -/
theorem morphologyComplexity_mean_over_n (bbox : BBox) (depthPoints : List DepthPoint)
    (h : 2 ≤ (Analysis3D.matchedSamples bbox depthPoints).length) :
    Analysis3D.morphologyComplexity bbox depthPoints =
      min 1 ((Finset.sum
          (Finset.range ((Analysis3D.matchedSamples bbox depthPoints).length - 1))
          (fun i =>
            |((Analysis3D.matchedSamples bbox depthPoints).map (fun p => p.depth)).getD (i + 1) 0 -
             ((Analysis3D.matchedSamples bbox depthPoints).map (fun p => p.depth)).getD i 0|)) /
        (Analysis3D.matchedSamples bbox depthPoints).length) := by
  have hne : ¬ (Analysis3D.matchedSamples bbox depthPoints).isEmpty = true := by
    intro hE
    rw [List.isEmpty_iff] at hE
    rw [hE] at h
    simp at h
  rw [Analysis3D.morphologyComplexity]
  simp only [hne, if_false, Bool.false_eq_true]
  rw [Analysis3D.calculateComplexity, if_neg (not_lt.mpr h), consecAbsDiffs_eq_sum]
  rw [List.length_map]

/-- C6 (witness): the amended formula instantiated on the concrete fixture
`cbb`/`cds` (two matched samples). -/
theorem morphologyComplexity_mean_over_n_witness :
    2 ≤ (Analysis3D.matchedSamples cbb cds).length ∧
    Analysis3D.morphologyComplexity cbb cds =
      min 1 ((Finset.sum
          (Finset.range ((Analysis3D.matchedSamples cbb cds).length - 1))
          (fun i =>
            |((Analysis3D.matchedSamples cbb cds).map (fun p => p.depth)).getD (i + 1) 0 -
             ((Analysis3D.matchedSamples cbb cds).map (fun p => p.depth)).getD i 0|)) /
        (Analysis3D.matchedSamples cbb cds).length) := by
  have h2 : 2 ≤ (Analysis3D.matchedSamples cbb cds).length := by
    have h1 : (decide (cbb.x ≤ (1 : ℚ) ∧ (1 : ℚ) ≤ cbb.x + cbb.width ∧
        cbb.y ≤ (1 : ℚ) ∧ (1 : ℚ) ≤ cbb.y + cbb.height)) = true := by
      rw [decide_eq_true_eq]
      norm_num [cbb]
    have hb : (decide (cbb.x ≤ (2 : ℚ) ∧ (2 : ℚ) ≤ cbb.x + cbb.width ∧
        cbb.y ≤ (2 : ℚ) ∧ (2 : ℚ) ≤ cbb.y + cbb.height)) = true := by
      rw [decide_eq_true_eq]
      norm_num [cbb]
    simp only [Analysis3D.matchedSamples, cds, List.filter_cons, List.filter_nil, h1, hb,
      if_true]
    simp
  exact ⟨h2, morphologyComplexity_mean_over_n cbb cds h2⟩

/-! ### C2 / C10 — object tracker -/

/-- `find?` returns the element at the first index whose predicate holds:
if `l[j] = s`, `p s` holds and `p` fails on everything before index `j`,
then `find? p l = some s`. -/
theorem find?_of_first_index {α : Type} (p : α → Bool) (l : List α) (j : ℕ) (s : α)
    (hj : l[j]? = some s) (hs : p s = true) (hbefore : ∀ o ∈ l.take j, p o = false) :
    l.find? p = some s := by
  induction l generalizing j with
  | nil => simp at hj
  | cons a t ih =>
    cases j with
    | zero =>
      simp only [List.getElem?_cons_zero, Option.some.injEq] at hj
      subst hj
      exact List.find?_cons_of_pos t hs
    | succ j =>
      have ha : p a = false := hbefore a (by simp [List.take_succ_cons])
      rw [List.find?_cons_of_neg t (by simp [ha])]
      refine ih j ?_ ?_
      · simpa using hj
      · intro o ho
        exact hbefore o (by simp [List.take_succ_cons, ho])

/-- C2 (counterexample): the tracker does NOT pick the nearest matching
previous object.  With `tP1` (90 px away) listed before `tP2` (0 px away),
both matching the new object `tN`, the tracker assigns `tP1`'s identity even
though `tP2` is strictly nearer. -/
theorem trackObjects_not_nearest :
    trackObjects true [tN] [tP1, tP2] = [{ tN with id := tP1.id }] ∧
    matchesB tN tP2 = true ∧
    distSqC tN.center tP2.center < distSqC tN.center tP1.center ∧
    tP1.id ≠ tP2.id := by
  have hm1 : matchesB tN tP1 = true := by
    rw [matchesB, decide_eq_true_eq]
    constructor
    · rfl
    · norm_num [distSqC, tN, tP1]
  have hm2 : matchesB tN tP2 = true := by
    rw [matchesB, decide_eq_true_eq]
    constructor
    · rfl
    · norm_num [distSqC, tN, tP2]
  refine ⟨?_, hm2, by norm_num [distSqC, tN, tP1, tP2], by decide⟩
  rw [trackObjects, if_neg (by simp)]
  simp only [List.map_cons, List.map_nil, List.find?_cons_of_pos _ hm1]

/-- C2 (amended): with tracking enabled and a non-empty previous list, the
tracker maps each new object positionally; a new object takes the identity
of the FIRST previous object in list order with the same label whose center
lies strictly within 100 px (not the nearest such object), and keeps its
fresh identity when no previous object matches. -/
theorem trackObjects_first_match_in_order (newObjects previousObjects : List DetectedObject)
    (hprev : previousObjects ≠ []) (i : ℕ) :
    (trackObjects true newObjects previousObjects).length = newObjects.length ∧
    ∀ n, newObjects[i]? = some n →
      ((∀ o ∈ previousObjects, matchesB n o = false) →
          (trackObjects true newObjects previousObjects)[i]? = some n) ∧
      (∀ j s, previousObjects[j]? = some s → matchesB n s = true →
          (∀ o ∈ previousObjects.take j, matchesB n o = false) →
          (trackObjects true newObjects previousObjects)[i]? = some { n with id := s.id }) := by
  have hcond : ¬ ((!true) = true ∨ previousObjects.isEmpty = true) := by
    simp [hprev]
  rw [trackObjects, if_neg hcond]
  refine ⟨List.length_map _ _, fun n hn => ⟨fun hall => ?_, fun j s hj hs hbefore => ?_⟩⟩
  · rw [List.getElem?_map, hn]
    have hnone : previousObjects.find? (fun oldObj => matchesB n oldObj) = none := by
      rw [List.find?_eq_none]
      intro x hx
      simp [hall x hx]
    simp [hnone]
  · rw [List.getElem?_map, hn]
    simp only [Option.map_some']
    rw [find?_of_first_index (fun oldObj => matchesB n oldObj) previousObjects j s hj hs hbefore]

/-- C2 (witness): the amended first-match behaviour on the fixture lists
(`tP1` listed first wins although `tP2` is nearer): length preservation and
the rewritten identity at index 0. -/
theorem trackObjects_first_match_in_order_witness :
    (trackObjects true [tN] [tP1, tP2]).length = [tN].length ∧
    (trackObjects true [tN] [tP1, tP2])[0]? = some { tN with id := tP1.id } := by
  have h := trackObjects_first_match_in_order [tN] [tP1, tP2] (by simp) 0
  refine ⟨h.1, ?_⟩
  have hm1 : matchesB tN tP1 = true := by
    rw [matchesB, decide_eq_true_eq]
    exact ⟨rfl, by norm_num [distSqC, tN, tP1]⟩
  exact ((h.2 tN rfl).2) 0 tP1 rfl hm1 (by simp)

/-- C10 (confirmed): the tracker can emit two objects with the same
identity: two new objects with the same label, both within 100 px of one
previous object, both inherit that object's id. -/
theorem trackObjects_duplicate_identity :
    ∃ (newObjects previousObjects : List DetectedObject) (a b : DetectedObject),
      previousObjects ≠ [] ∧ a ∈ trackObjects true newObjects previousObjects ∧
      b ∈ trackObjects true newObjects previousObjects ∧ a ≠ b ∧ a.id = b.id := by
  have h1 : matchesB uN1 uP = true := by
    rw [matchesB, decide_eq_true_eq]
    exact ⟨rfl, by norm_num [distSqC, uN1, uP]⟩
  have h2 : matchesB uN2 uP = true := by
    rw [matchesB, decide_eq_true_eq]
    exact ⟨rfl, by norm_num [distSqC, uN2, uP]⟩
  have heval : trackObjects true [uN1, uN2] [uP] =
      [{ uN1 with id := uP.id }, { uN2 with id := uP.id }] := by
    rw [trackObjects, if_neg (by simp)]
    simp only [List.map_cons, List.map_nil, List.find?_cons_of_pos _ h1,
      List.find?_cons_of_pos _ h2]
  refine ⟨[uN1, uN2], [uP], { uN1 with id := uP.id }, { uN2 with id := uP.id },
    by simp, ?_, ?_, ?_, rfl⟩
  · rw [heval]
    simp
  · rw [heval]
    simp
  · intro h
    have := congrArg (fun o => o.center.x) h
    norm_num [uN1, uN2] at this

/-! ### C8 — export snapshot -/

/-- C8 (confirmed): for any session state with positive session duration the
export snapshot carries the (rounded) session duration, the frame count, the
average per-frame processing time, the full point/landmark/boundary sets of
the current map, the session trajectory with `averageSpeed` equal to
`totalDistance` divided by the session duration in seconds (also reported as
`totalTime`), and the exact metadata tag. -/
theorem exportMap_fields (currentMap : SpatialMap) (trajectory : Trajectory)
    (statistics : MappingStatistics) (perf : SessionPerf) (nowMs : ℚ) (isoNow : String)
    (hdur : 0 < nowMs - perf.startTime) :
    (exportMap currentMap trajectory statistics perf nowMs isoNow).sessionInfo.duration
        = round (nowMs - perf.startTime) ∧
    (exportMap currentMap trajectory statistics perf nowMs isoNow).sessionInfo.frameCount
        = perf.frameCount ∧
    (exportMap currentMap trajectory statistics perf nowMs isoNow).sessionInfo.avgProcessingTime
        = (if perf.frameCount > 0 then round (perf.totalProcessingTime / perf.frameCount)
           else 0) ∧
    (exportMap currentMap trajectory statistics perf nowMs isoNow).map.points
        = currentMap.points ∧
    (exportMap currentMap trajectory statistics perf nowMs isoNow).map.landmarks
        = currentMap.landmarks ∧
    (exportMap currentMap trajectory statistics perf nowMs isoNow).map.boundaries
        = currentMap.boundaries ∧
    (exportMap currentMap trajectory statistics perf nowMs isoNow).trajectory.points
        = trajectory.points ∧
    (exportMap currentMap trajectory statistics perf nowMs isoNow).trajectory.totalDistance
        = trajectory.totalDistance ∧
    (exportMap currentMap trajectory statistics perf nowMs isoNow).trajectory.averageSpeed
        = trajectory.totalDistance / ((nowMs - perf.startTime) / 1000) ∧
    (exportMap currentMap trajectory statistics perf nowMs isoNow).trajectory.totalTime
        = (nowMs - perf.startTime) / 1000 ∧
    (exportMap currentMap trajectory statistics perf nowMs isoNow).statistics = statistics ∧
    (exportMap currentMap trajectory statistics perf nowMs isoNow).metadata
        = ⟨"1.0", "SLAM_JSON", "camera_relative"⟩ := by
  refine ⟨rfl, rfl, rfl, rfl, rfl, rfl, rfl, rfl, rfl, rfl, rfl, rfl⟩

/-- C8 (witness): the export field equations at a concrete session state
with duration 1000 ms. -/
theorem exportMap_fields_witness :
    (0 : ℚ) < 1000 - (0 : ℚ) ∧
    (exportMap ⟨[], [], []⟩ ⟨[], 7, 0⟩ ⟨0, 0, 0, 0, 0⟩ ⟨2, 10, 0⟩ 1000 "t").trajectory.averageSpeed
        = 7 / ((1000 - 0) / 1000) ∧
    (exportMap ⟨[], [], []⟩ ⟨[], 7, 0⟩ ⟨0, 0, 0, 0, 0⟩ ⟨2, 10, 0⟩ 1000 "t").metadata
        = ⟨"1.0", "SLAM_JSON", "camera_relative"⟩ := by
  have h := exportMap_fields ⟨[], [], []⟩ ⟨[], 7, 0⟩ ⟨0, 0, 0, 0, 0⟩ ⟨2, 10, 0⟩ 1000 "t"
    (by norm_num)
  exact ⟨by norm_num, h.2.2.2.2.2.2.2.2.1, h.2.2.2.2.2.2.2.2.2.2.2⟩

/-! ### C3 — processFrame on an empty depth-sample list -/

/-- C3 (amended): a `processFrame` call with an empty depth-sample list adds
no map points and no landmarks (and, the embedding being total, surfaces no
error), but the standing map maintenance still runs: the resulting point set
is exactly `optimizeMap` of the prior points (age/confidence pruning plus
the 10000 cap) and the landmark list is re-sorted by confidence and capped
at 50.  The map is therefore unchanged only up to this maintenance, not
unconditionally. -/
theorem processFrame_empty_maintenance_only (st : SlamState) (img : ImageData)
    (motionVector : Option Vec3) (env : SlamEnv) :
    (SLAMProcessor.processFrame st img [] motionVector env).1.mapPoints
        = SLAMProcessor.optimizeMap env.now st.mapPoints ∧
    (SLAMProcessor.processFrame st img [] motionVector env).1.landmarks
        = (sortByDesc (fun lm => lm.confidence) st.landmarks).take 50 := by
  constructor
  · rfl
  · rfl

/-- C3 (counterexample): `processFrame` with an empty depth-sample list is
NOT a no-op on every map state: the stale point of `stStale` (created at
t = 0, confidence 0.9) is pruned by the age filter when the call happens at
t = 40000 ms, so the post-call point set is empty while the prior set was
not. -/
theorem processFrame_empty_prunes_stale_point :
    stStale.mapPoints ≠ [] ∧
    (SLAMProcessor.processFrame stStale imgTiny [] (some ⟨0, 0, 0⟩) envStale).1.mapPoints
      = [] := by
  constructor
  · simp [stStale]
  · show SLAMProcessor.optimizeMap envStale.now stStale.mapPoints = []
    norm_num [SLAMProcessor.optimizeMap, stStale, envStale, List.filter_cons,
      decide_eq_true_eq]

/-! ### C4 — map / landmark / trajectory caps -/

theorem optimizeMap_length_le (now : ℚ) (m : List MapPoint3D) :
    (SLAMProcessor.optimizeMap now m).length ≤ 10000 := by
  simp only [SLAMProcessor.optimizeMap]
  split
  case isTrue h => exact List.length_take_le _ _
  case isFalse h => exact le_of_not_lt h

theorem detectLandmarks_length_le (env : SlamEnv) (points : List MapPoint3D)
    (landmarks : List Landmark) :
    (SLAMProcessor.detectLandmarks env points landmarks).length ≤ 50 := by
  simp only [SLAMProcessor.detectLandmarks]
  exact List.length_take_le _ _

theorem updateTrajectory_length_le (traj : Trajectory) (lastPosition movement : Vec3)
    (env : SlamEnv) (h : traj.points.length ≤ 1000) :
    ((SLAMProcessor.updateTrajectory traj lastPosition movement env).1).points.length
      ≤ 1000 := by
  simp only [SLAMProcessor.updateTrajectory]
  split
  case isTrue h1 =>
    rw [List.length_drop]
    simp only [List.length_append, List.length_cons, List.length_nil] at h1 ⊢
    omega
  case isFalse h1 =>
    exact le_of_not_lt h1

theorem updateTrajectory_points_shape (traj : Trajectory) (lastPosition movement : Vec3)
    (env : SlamEnv) :
    ∃ s, ((SLAMProcessor.updateTrajectory traj lastPosition movement env).1).points
          = traj.points ++ [s] ∨
        ((SLAMProcessor.updateTrajectory traj lastPosition movement env).1).points
          = (traj.points ++ [s]).drop 1 := by
  simp only [SLAMProcessor.updateTrajectory]
  refine ⟨⟨⟨lastPosition.x + movement.x, lastPosition.y + movement.y,
    lastPosition.z + movement.z⟩, env.now, 4/5 + env.trajRand * (1/5)⟩, ?_⟩
  split
  case isTrue h => exact Or.inr rfl
  case isFalse h => exact Or.inl rfl

theorem runFrames_trajectory_le (inputs : List SLAMProcessor.FrameInput) :
    (SLAMProcessor.runFrames SLAMProcessor.slamInit inputs).trajectory.points.length
      ≤ 1000 := by
  have main : ∀ (l : List SLAMProcessor.FrameInput) (st : SlamState),
      st.trajectory.points.length ≤ 1000 →
      (SLAMProcessor.runFrames st l).trajectory.points.length ≤ 1000 := by
    intro l
    induction l with
    | nil => intro st h; exact h
    | cons a t ih =>
      intro st h
      exact ih (SLAMProcessor.stepFrame st a)
        (updateTrajectory_length_le st.trajectory st.lastPosition
          (SLAMProcessor.estimateCameraMovement a.motionVector a.env) a.env h)
  exact main inputs SLAMProcessor.slamInit (by simp [SLAMProcessor.slamInit])

/-- C4 (confirmed): after any `processFrame` call on any state reachable
from the freshly constructed processor, the map holds at most 10000 points,
at most 50 landmarks and at most 1000 trajectory samples; moreover the call
appends exactly one trajectory sample, evicting the oldest (dropping the
list head) when the cap is exceeded. -/
theorem processFrame_caps (inputs : List SLAMProcessor.FrameInput) (inp : SLAMProcessor.FrameInput) :
    (SLAMProcessor.stepFrame (SLAMProcessor.runFrames SLAMProcessor.slamInit inputs)
        inp).mapPoints.length ≤ 10000 ∧
    (SLAMProcessor.stepFrame (SLAMProcessor.runFrames SLAMProcessor.slamInit inputs)
        inp).landmarks.length ≤ 50 ∧
    (SLAMProcessor.stepFrame (SLAMProcessor.runFrames SLAMProcessor.slamInit inputs)
        inp).trajectory.points.length ≤ 1000 ∧
    ∃ s, (SLAMProcessor.stepFrame (SLAMProcessor.runFrames SLAMProcessor.slamInit inputs)
            inp).trajectory.points
          = (SLAMProcessor.runFrames SLAMProcessor.slamInit inputs).trajectory.points ++ [s] ∨
        (SLAMProcessor.stepFrame (SLAMProcessor.runFrames SLAMProcessor.slamInit inputs)
            inp).trajectory.points
          = ((SLAMProcessor.runFrames SLAMProcessor.slamInit inputs).trajectory.points
              ++ [s]).drop 1 := by
  refine ⟨optimizeMap_length_le _ _, detectLandmarks_length_le _ _ _,
    updateTrajectory_length_le _ _ _ _ (runFrames_trajectory_le inputs),
    updateTrajectory_points_shape _ _ _ _⟩

/-! ### C5 / C9 — frame enhancer -/

theorem adjustBrightness_one (img : ImageData) (hwf : img.WF) :
    ImageProcessor.adjustBrightness img 1 = img := by
  rcases img with ⟨w, h, d⟩
  simp only [ImageProcessor.adjustBrightness]
  congr 1
  funext i
  split
  · rfl
  · rw [mul_one, min_eq_right (by exact_mod_cast hwf i)]
    exact store_natCast _ (hwf i)

theorem adjustContrast_one (img : ImageData) (hwf : img.WF) :
    ImageProcessor.adjustContrast img 1 = img := by
  rcases img with ⟨w, h, d⟩
  simp only [ImageProcessor.adjustContrast]
  congr 1
  funext i
  split
  · rfl
  · have hfc : (259 * (((1:ℚ) - 1) * 255 + 255)) / (255 * (259 - ((1:ℚ) - 1) * 255)) = 1 := by
      norm_num
    rw [hfc, one_mul]
    have harith : ((d i : ℚ) - 128) + 128 = (d i : ℚ) := by ring
    rw [harith, min_eq_right (by exact_mod_cast hwf i),
      max_eq_right (by positivity)]
    exact store_natCast _ (hwf i)

theorem adjustGamma_one (M : JSMath) (img : ImageData) (hpow : ∀ x, M.pow x 1 = x)
    (hwf : img.WF) :
    ImageProcessor.adjustGamma M img 1 = img := by
  rcases img with ⟨w, h, d⟩
  simp only [ImageProcessor.adjustGamma]
  congr 1
  funext i
  split
  · rfl
  · have h1 : (1 : ℚ) / 1 = 1 := by norm_num
    rw [h1, hpow]
    have harith : (255 : ℚ) * ((d i : ℚ) / 255) = (d i : ℚ) := by
      rw [mul_comm, div_mul_cancel₀]
      norm_num
    rw [harith, min_eq_right (by exact_mod_cast hwf i)]
    exact store_natCast _ (hwf i)

theorem denoiseImage_zero (img : ImageData) (hwf : img.WF) :
    ImageProcessor.denoiseImage img 0 = img := by
  rcases img with ⟨w, h, d⟩
  simp only [ImageProcessor.denoiseImage]
  congr 1
  funext i
  split
  · simp only [sub_zero, mul_one, mul_zero, add_zero]
    exact store_natCast _ (hwf i)
  · rfl

theorem enhanceEdges_zero (M : JSMath) (img : ImageData) (hwf : img.WF) :
    ImageProcessor.enhanceEdges M img 0 = img := by
  rcases img with ⟨w, h, d⟩
  simp only [ImageProcessor.enhanceEdges]
  congr 1
  funext i
  split
  · simp only [mul_zero, add_zero]
    rw [min_eq_right (by exact_mod_cast hwf i)]
    exact store_natCast _ (hwf i)
  · rfl

/-- C5 (confirmed): at the neutral settings brightness = contrast = gamma = 1,
noiseReduction = edgeEnhancement = 0, every stage before the thermal remap is
the identity on a well-formed frame (using that the host power satisfies
`pow x 1 = x`), so the enhancer's output is exactly the thermal remap of the
input frame. -/
theorem enhanceNightVision_neutral_eq_thermal (M : JSMath) (img : ImageData)
    (hpow : ∀ x, M.pow x 1 = x) (hwf : img.WF) :
    Analysis3D.enhanceNightVision M img ⟨1, 1, 1, 0, 0⟩
      = ImageProcessor.applyThermalEffect img := by
  show ImageProcessor.applyThermalEffect
    (ImageProcessor.enhanceEdges M
      (ImageProcessor.denoiseImage
        (ImageProcessor.adjustGamma M
          (ImageProcessor.adjustContrast
            (ImageProcessor.adjustBrightness img 1) 1) 1) 0) 0) = _
  rw [adjustBrightness_one img hwf, adjustContrast_one img hwf, adjustGamma_one M img hpow hwf,
    denoiseImage_zero img hwf, enhanceEdges_zero M img hwf]

/-- C5 (witness): the neutral-settings equation on the concrete frame
`imgTiny` and the platform `jsMathId`. -/
theorem enhanceNightVision_neutral_witness :
    (∀ x, jsMathId.pow x 1 = x) ∧ ImageData.WF imgTiny ∧
    Analysis3D.enhanceNightVision jsMathId imgTiny ⟨1, 1, 1, 0, 0⟩
      = ImageProcessor.applyThermalEffect imgTiny :=
  ⟨fun _ => rfl, fun _ => Nat.zero_le 255,
   enhanceNightVision_neutral_eq_thermal jsMathId imgTiny (fun _ => rfl)
     (fun _ => Nat.zero_le 255)⟩

theorem adjustBrightness_alpha (img : ImageData) (factor : ℚ) (i : ℕ) (h : i % 4 = 3) :
    (ImageProcessor.adjustBrightness img factor).data i = img.data i := by
  simp only [ImageProcessor.adjustBrightness]
  rw [if_pos h]

theorem adjustContrast_alpha (img : ImageData) (factor : ℚ) (i : ℕ) (h : i % 4 = 3) :
    (ImageProcessor.adjustContrast img factor).data i = img.data i := by
  simp only [ImageProcessor.adjustContrast]
  rw [if_pos h]

theorem adjustGamma_alpha (M : JSMath) (img : ImageData) (gamma : ℚ) (i : ℕ)
    (h : i % 4 = 3) :
    (ImageProcessor.adjustGamma M img gamma).data i = img.data i := by
  simp only [ImageProcessor.adjustGamma]
  rw [if_pos h]

theorem denoiseImage_alpha (img : ImageData) (strength : ℚ) (i : ℕ) (h : i % 4 = 3) :
    (ImageProcessor.denoiseImage img strength).data i = img.data i := by
  have hnc : ¬ (i % 4 < 3) := by omega
  simp only [ImageProcessor.denoiseImage]
  rw [if_neg fun hc => hnc hc.1]

theorem enhanceEdges_alpha (M : JSMath) (img : ImageData) (strength : ℚ) (i : ℕ)
    (h : i % 4 = 3) :
    (ImageProcessor.enhanceEdges M img strength).data i = img.data i := by
  have hnc : ¬ (i % 4 < 3) := by omega
  simp only [ImageProcessor.enhanceEdges]
  rw [if_neg fun hc => hnc hc.1]

theorem applyThermalEffect_alpha (img : ImageData) (i : ℕ) (h : i % 4 = 3) :
    (ImageProcessor.applyThermalEffect img).data i = img.data i := by
  simp only [ImageProcessor.applyThermalEffect]
  rw [if_pos h]

/-- C9 (confirmed): for every settings record the enhancer preserves the
frame's width and height, and every alpha-channel entry (flat index
`≡ 3 [MOD 4]`) of the output equals that of the input: each of the six
stages writes only the R, G, B channels. -/
theorem enhanceNightVision_preserves_dims_alpha (M : JSMath) (img : ImageData)
    (config : NightVisionEnhancement) :
    (Analysis3D.enhanceNightVision M img config).width = img.width ∧
    (Analysis3D.enhanceNightVision M img config).height = img.height ∧
    ∀ i, i % 4 = 3 → (Analysis3D.enhanceNightVision M img config).data i = img.data i := by
  refine ⟨rfl, rfl, fun i hi => ?_⟩
  rw [Analysis3D.enhanceNightVision, applyThermalEffect_alpha _ i hi,
    enhanceEdges_alpha _ _ _ i hi, denoiseImage_alpha _ _ i hi, adjustGamma_alpha _ _ _ i hi,
    adjustContrast_alpha _ _ i hi, adjustBrightness_alpha _ _ i hi]
